import Mathlib

/-!
Verification development for the DSLMaker backend (Python).

Each Python module relevant to the frozen claims is shallowly embedded as
executable Lean definitions; theorems at the end of the file settle the
claims.  Python dictionaries with a known shape are embedded as structures
whose `Option` fields record the presence or absence of the corresponding
dictionary key; Python floats (quality scores, distances) are embedded as
rationals; Python strings are embedded as `String` (or `List Char` where
character-level manipulation is required).
-/

set_option maxHeartbeats 1000000

namespace DSLMaker

/-! ## app/services/validation_service.py -/

/-- `ValidationIssue` (validation_service.py lines 14-19). -/
structure ValidationIssue where
  severity : String
  message : String
  location : Option String
  suggestion : Option String
deriving DecidableEq

/-- `ValidationResult` (validation_service.py lines 22-27). -/
structure ValidationResult where
  is_valid : Bool
  issues : List ValidationIssue := []
  warnings_count : Nat := 0
  errors_count : Nat := 0
deriving DecidableEq

/-- `ValidationResult.add_error` (lines 29-38): append an error issue,
increment the error count and flip `is_valid` to `False`. -/
def ValidationResult.add_error (r : ValidationResult) (message : String)
    (location : Option String) (suggestion : Option String) : ValidationResult :=
  { r with
    issues := r.issues ++ [⟨"error", message, location, suggestion⟩]
    errors_count := r.errors_count + 1
    is_valid := false }

/-- `ValidationResult.add_warning` (lines 40-48). -/
def ValidationResult.add_warning (r : ValidationResult) (message : String)
    (location : Option String) (suggestion : Option String) : ValidationResult :=
  { r with
    issues := r.issues ++ [⟨"warning", message, location, suggestion⟩]
    warnings_count := r.warnings_count + 1 }

/-- `ValidationResult.add_info` (lines 50-56). -/
def ValidationResult.add_info (r : ValidationResult) (message : String)
    (location : Option String) : ValidationResult :=
  { r with issues := r.issues ++ [⟨"info", message, location, none⟩] }

/-- The `data` dictionary of a node as inspected by the validator: presence
of the required `type`/`title` keys and of the keys probed by the
type-specific soft checks (`model`, `code`, `code_language`, `api.api_url`,
`conditions`). -/
structure NodeDataDict where
  type? : Option String
  hasTitle : Bool
  hasModel : Bool
  hasCode : Bool
  hasCodeLanguage : Bool
  hasApiUrl : Bool
  hasConditions : Bool
deriving DecidableEq

/-- A node dictionary: `id` and `data` keys may be absent. -/
structure NodeDict where
  id? : Option String
  data? : Option NodeDataDict
deriving DecidableEq

/-- An edge dictionary: `source` and `target` keys may be absent. -/
structure EdgeDict where
  source? : Option String
  target? : Option String
deriving DecidableEq

/-- The value of the top-level `app` key: presence of `name`/`description`
and the (optional) `nodes`/`edges` lists. -/
structure AppDict where
  hasName : Bool
  hasDescription : Bool
  nodes? : Option (List NodeDict)
  edges? : Option (List EdgeDict)
deriving DecidableEq

/-- A workflow document as seen by `DSLValidationService.validate_workflow`:
the optional `app` section, plus the list of `(node_id, variable)` matches
that the `VARIABLE_PATTERN` regex finds in `str(workflow)` (the validator
inspects the rest of the document only through that serialized form). -/
structure TopDoc where
  app? : Option AppDict
  var_refs : List (String × String)

/-- `app_data.get("nodes", [])` after `workflow.get("app", {})`. -/
def TopDoc.app_nodes (doc : TopDoc) : List NodeDict :=
  match doc.app? with
  | none => []
  | some app => app.nodes?.getD []

/-- `app_data.get("edges", [])` after `workflow.get("app", {})`. -/
def TopDoc.app_edges (doc : TopDoc) : List EdgeDict :=
  match doc.app? with
  | none => []
  | some app => app.edges?.getD []

/-- `VALID_NODE_TYPES` (lines 63-68). -/
def VALID_NODE_TYPES : List String :=
  ["start", "end", "llm", "knowledge-retrieval", "code", "http-request",
   "if-else", "iteration", "parameter-extractor", "question-classifier",
   "variable-aggregator", "template-transform", "assigner", "tool",
   "conversation-variable-assigner"]

/-- `sorted(VALID_NODE_TYPES)`, used in the invalid-type suggestion text. -/
def VALID_NODE_TYPES_SORTED : List String :=
  ["assigner", "code", "conversation-variable-assigner", "end",
   "http-request", "if-else", "iteration", "knowledge-retrieval", "llm",
   "parameter-extractor", "question-classifier", "start",
   "template-transform", "tool", "variable-aggregator"]

/-- `_validate_structure` (lines 139-159). -/
def validate_structure (doc : TopDoc) (r : ValidationResult) : ValidationResult :=
  match doc.app? with
  | none =>
      r.add_error "Missing \x27app\x27 key in workflow" none
        (some "Ensure workflow has top-level \x27app\x27 object")
  | some app =>
      let missing : List String :=
        (if app.hasName then [] else ["name"]) ++
        (if app.hasDescription then [] else ["description"]) ++
        (if app.nodes?.isSome then [] else ["nodes"]) ++
        (if app.edges?.isSome then [] else ["edges"])
      if missing = [] then r
      else
        r.add_error ("Missing required app fields: " ++ String.intercalate ", " missing)
          (some "app") (some "Add missing fields to app object")

/-- `_validate_node_type_specific` (lines 224-265): soft per-kind checks. -/
def validate_node_type_specific (node_type : String) (node_data : NodeDataDict)
    (node_id : String) (r : ValidationResult) : ValidationResult :=
  if node_type = "llm" then
    if node_data.hasModel then r
    else r.add_warning "LLM node missing \x27model\x27 configuration" (some node_id)
      (some "Specify model (e.g., gpt-4, gpt-4o-mini)")
  else if node_type = "code" then
    if node_data.hasCode = false ∧ node_data.hasCodeLanguage = false then
      r.add_warning "Code node missing \x27code\x27 or \x27code_language\x27" (some node_id) none
    else r
  else if node_type = "http-request" then
    if node_data.hasApiUrl then r
    else r.add_warning "HTTP node missing API URL configuration" (some node_id)
      (some "Add \x27api\x27 with \x27api_url\x27 field")
  else if node_type = "if-else" then
    if node_data.hasConditions then r
    else r.add_warning "If-else node missing \x27conditions\x27" (some node_id)
      (some "Define conditions for branching logic")
  else r

/-- `_validate_node_data` (lines 199-222). -/
def validate_node_data (node_data : NodeDataDict) (node_id : String)
    (r : ValidationResult) : ValidationResult :=
  let missing : List String :=
    (if node_data.type?.isSome then [] else ["type"]) ++
    (if node_data.hasTitle then [] else ["title"])
  if missing ≠ [] then
    r.add_error ("Node data missing required fields: " ++ String.intercalate ", " missing)
      (some node_id) (some "Add \x27type\x27 and \x27title\x27 to node data")
  else
    let node_type := node_data.type?.getD ""
    let r :=
      if VALID_NODE_TYPES.contains node_type then r
      else
        r.add_error ("Invalid node type: \x27" ++ node_type ++ "\x27") (some node_id)
          (some ("Use one of: " ++ String.intercalate ", " VALID_NODE_TYPES_SORTED))
    validate_node_type_specific node_type node_data node_id r

/-- The loop body of `_validate_nodes` (lines 170-197), carrying the running
index `i` and the set of node ids seen so far. -/
def validate_nodes_loop : List NodeDict → Nat → List String → ValidationResult → ValidationResult
  | [], _, _, r => r
  | node :: rest, i, node_ids, r =>
      match node.id?, node.data? with
      | some node_id, some node_data =>
          let dup := node_ids.contains node_id
          let r :=
            if dup then
              r.add_error ("Duplicate node ID: " ++ node_id) (some node_id)
                (some "Ensure all node IDs are unique")
            else r
          let node_ids := if dup then node_ids else node_ids ++ [node_id]
          validate_nodes_loop rest (i + 1) node_ids (validate_node_data node_data node_id r)
      | id?, data? =>
          let missing : List String :=
            (if id?.isSome then [] else ["id"]) ++ (if data?.isSome then [] else ["data"])
          validate_nodes_loop rest (i + 1) node_ids
            (r.add_error ("Node " ++ toString i ++ " missing required fields: " ++
                String.intercalate ", " missing)
              (some ("node_" ++ toString i)) (some "Add required fields to node"))

/-- `_validate_nodes` (lines 161-197). -/
def validate_nodes (nodes : List NodeDict) (r : ValidationResult) : ValidationResult :=
  if nodes = [] then
    r.add_error "Workflow has no nodes" none (some "Add at least start and end nodes")
  else validate_nodes_loop nodes 0 [] r

/-- The loop body of `_validate_edges` (lines 276-304); `node_ids` is the set
`{node.get("id") for node in nodes}` (which may contain `None`). -/
def validate_edges_loop : List EdgeDict → Nat → List (Option String) → ValidationResult → ValidationResult
  | [], _, _, r => r
  | edge :: rest, i, node_ids, r =>
      match edge.source?, edge.target? with
      | some source, some target =>
          let r :=
            if node_ids.contains (some source) then r
            else
              r.add_error ("Edge source node \x27" ++ source ++ "\x27 does not exist")
                (some ("edge_" ++ toString i))
                (some "Ensure edge source matches an existing node ID")
          let r :=
            if node_ids.contains (some target) then r
            else
              r.add_error ("Edge target node \x27" ++ target ++ "\x27 does not exist")
                (some ("edge_" ++ toString i))
                (some "Ensure edge target matches an existing node ID")
          validate_edges_loop rest (i + 1) node_ids r
      | source?, target? =>
          let missing : List String :=
            (if source?.isSome then [] else ["source"]) ++
            (if target?.isSome then [] else ["target"])
          validate_edges_loop rest (i + 1) node_ids
            (r.add_error ("Edge " ++ toString i ++ " missing required fields: " ++
                String.intercalate ", " missing)
              (some ("edge_" ++ toString i)) (some "Add \x27source\x27 and \x27target\x27 to edge"))

/-- `_validate_edges` (lines 267-304). -/
def validate_edges_phase (edges : List EdgeDict) (node_ids : List (Option String))
    (r : ValidationResult) : ValidationResult :=
  if edges = [] then
    r.add_warning "Workflow has no edges" none (some "Connect nodes with edges to define flow")
  else validate_edges_loop edges 0 node_ids r

/-- `node.get("data", {}).get("type")` for each node, as computed at
line 308. -/
def node_types_of (nodes : List NodeDict) : List (Option String) :=
  nodes.map (fun n => (n.data?.getD ⟨none, false, false, false, false, false, false⟩).type?)

/-- `_validate_start_end_nodes` (lines 310-314): error when no start-type
node exists. -/
def check_missing_start (node_types : List (Option String)) (r : ValidationResult) :
    ValidationResult :=
  if node_types.contains (some "start") then r
  else
    r.add_error "Workflow missing \x27start\x27 node" none
      (some "Add a start node to define workflow entry point")

/-- `_validate_start_end_nodes` (lines 316-320): error when no end-type
node exists. -/
def check_missing_end (node_types : List (Option String)) (r : ValidationResult) :
    ValidationResult :=
  if node_types.contains (some "end") then r
  else
    r.add_error "Workflow missing \x27end\x27 node" none
      (some "Add an end node to define workflow exit point")

/-- `_validate_start_end_nodes` (lines 323-327): warning when several
start-type nodes exist. -/
def check_multiple_start (node_types : List (Option String)) (r : ValidationResult) :
    ValidationResult :=
  if 1 < node_types.count (some "start") then
    r.add_warning "Workflow has multiple \x27start\x27 nodes" none
      (some "Typically only one start node is needed")
  else r

/-- `_validate_start_end_nodes` (lines 329-332): informational issue when
several end-type nodes exist. -/
def check_multiple_end (node_types : List (Option String)) (r : ValidationResult) :
    ValidationResult :=
  if 1 < node_types.count (some "end") then
    r.add_info "Workflow has multiple \x27end\x27 nodes (may be intentional for branching)" none
  else r

/-- `_validate_start_end_nodes` (lines 306-332): the four checks in source
order. -/
def validate_start_end_nodes (nodes : List NodeDict) (r : ValidationResult) : ValidationResult :=
  let node_types := node_types_of nodes
  check_multiple_end node_types
    (check_multiple_start node_types
      (check_missing_end node_types
        (check_missing_start node_types r)))

/-- `_validate_variable_references` (lines 334-349): every regex match in
the serialized document whose node id is not a known node id produces a
warning. -/
def validate_variable_references (doc : TopDoc) (r : ValidationResult) : ValidationResult :=
  let node_ids := doc.app_nodes.map (·.id?)
  doc.var_refs.foldl
    (fun r p =>
      if node_ids.contains (some p.1) then r
      else
        r.add_warning ("Variable reference to non-existent node: \x7b\x7b#" ++ p.1 ++ "." ++
            p.2 ++ "#\x7d\x7d")
          none (some ("Ensure node \x27" ++ p.1 ++ "\x27 exists or update variable reference")))
    r

/-- Adjacency lookup: `graph.get(current, [])` where queue entries may be
`None` (an edge target that was itself a missing key). -/
def adj (graph : List (String × List (Option String))) : Option String → List (Option String)
  | none => []
  | some s =>
      match graph.find? (fun p => p.1 = s) with
      | none => []
      | some p => p.2

/-- `graph[source].append(target)` for one edge (lines 358-362): update the
adjacency list only when the source key exists in the graph. -/
def add_edge_to_graph (graph : List (String × List (Option String)))
    (edge : EdgeDict) : List (String × List (Option String)) :=
  match edge.source? with
  | none => graph
  | some s =>
      if graph.any (fun p => p.1 = s) then
        graph.map (fun p => if p.1 = s then (p.1, p.2 ++ [edge.target?]) else p)
      else graph

/-- The BFS loop of `_validate_connectivity` (lines 378-383), with explicit
fuel (each iteration pops one queue element; the fuel chosen at the call
site exceeds the number of pops that can ever occur). -/
def bfs_loop (graph : List (String × List (Option String))) :
    Nat → List (Option String) → List (Option String) → List (Option String)
  | 0, _, reachable => reachable
  | _ + 1, [], reachable => reachable
  | fuel + 1, current :: queue, reachable =>
      if reachable.contains current then bfs_loop graph fuel queue reachable
      else bfs_loop graph fuel (queue ++ adj graph current) (reachable ++ [current])

/-- `_validate_connectivity` (lines 351-393).  Accessing `node["id"]` for a
node without an `id` key raises `KeyError('id')` in Python, which the
surrounding `try`/`except` of `validate_workflow` converts into a single
error issue; that path is modeled explicitly here. -/
def validate_connectivity (nodes : List NodeDict) (edges : List EdgeDict)
    (r : ValidationResult) : ValidationResult :=
  if nodes = [] ∨ edges = [] then r
  else if nodes.any (fun n => n.id?.isNone) then
    r.add_error "Validation failed with exception: \x27id\x27" none
      (some "Check workflow structure and format")
  else
    let ids := (nodes.map (fun n => n.id?.getD "")).eraseDups
    let graph := edges.foldl add_edge_to_graph (ids.map (fun i => (i, ([] : List (Option String)))))
    let start_nodes := (nodes.filter (fun n =>
      (n.data?.getD ⟨none, false, false, false, false, false, false⟩).type? = some "start")).map
        (fun n => n.id?.getD "")
    match start_nodes with
    | [] => r
    | start_id :: _ =>
        let reachable := bfs_loop graph (1 + nodes.length + edges.length) [some start_id] []
        let unreachable := ids.filter (fun i => ¬ reachable.contains (some i))
        if unreachable = [] then r
        else
          r.add_warning ("Unreachable nodes detected: " ++ String.intercalate ", " unreachable)
            none (some "Ensure all nodes are connected to the workflow path")

/-- `DSLValidationService.validate_workflow` (lines 80-137): the seven
validation phases run in order on a fresh result. -/
def validate_workflow (doc : TopDoc) : ValidationResult :=
  let r : ValidationResult := { is_valid := true }
  let r := validate_structure doc r
  let nodes := doc.app_nodes
  let r := validate_nodes nodes r
  let edges := doc.app_edges
  let node_ids := nodes.map (·.id?)
  let r := validate_edges_phase edges node_ids r
  let r := validate_start_end_nodes nodes r
  let r := validate_variable_references doc r
  validate_connectivity nodes edges r

/-! ## app/agents/quality_agent.py -/

/-- The document the quality agent assembles for validation
(quality_agent.py lines 172-175): `{"nodes": [...], "edges": [...]}` — it
has no top-level `"app"` key, whatever the configured nodes and edges are.
Only the `(node_id, variable)` regex matches over its serialization reach
the validator's variable-reference phase. -/
def quality_workflow_json (var_refs : List (String × String)) : TopDoc :=
  { app? := none, var_refs := var_refs }

/-- The score-penalty step of `QualityAgent.execute` (lines 234-239):
if the pre-LLM validation failed, subtract `min(20, errors_count * 5)`
from both the LLM-reported overall and correctness scores, floored at 0. -/
def quality_apply_penalty (v : ValidationResult) (overall_score correctness_score : ℚ) :
    ℚ × ℚ :=
  if v.is_valid = false then
    let penalty : ℚ := min 20 ((v.errors_count : ℚ) * 5)
    (max 0 (overall_score - penalty), max 0 (correctness_score - penalty))
  else (overall_score, correctness_score)

/-! ## app/services/dsl_service.py -/

namespace DslService

/-- A start-node input variable (the dictionaries built at lines 172-179). -/
structure StartVar where
  variable_name : String
  var_type : String
  label : String
  required : Bool
deriving DecidableEq

/-- The `data` bag of an internal node, covering the fields produced by the
three node factories (`create_start_node`, `create_llm_node`,
`create_end_node`): the title, the start variables, the LLM prompt texts
(role/text pairs of `prompt_template`), the end `outputs` map and the
`desc` text. -/
structure SNodeData where
  title : String
  var_defs : List StartVar := []
  prompt_template : List (String × String) := []
  outputs : List (String × String) := []
  desc : String := ""
deriving DecidableEq

/-- `NodeBase` (models/workflow.py lines 10-15), with the key-presence of
`id`/`type` made explicit so that `validate_workflow`'s `node.get(...)`
calls are faithful on arbitrary documents. -/
structure SNode where
  id? : Option String
  type? : Option String
  data : SNodeData
  position : List (String × Int)
deriving DecidableEq

/-- `EdgeBase` (models/workflow.py lines 18-24), with key presence of the
fields read by `validate_workflow`. -/
structure SEdge where
  id : String
  source? : Option String
  target? : Option String
deriving DecidableEq

/-- The `graph` section of an internal document; `nodes`/`edges` keys may be
absent. -/
structure GraphDict where
  nodes? : Option (List SNode)
  edges? : Option (List SEdge)
deriving DecidableEq

/-- `WorkflowMetadata` (models/workflow.py lines 27-37), restricted to the
fields `generate_simple_workflow` copies into the document. -/
structure WorkflowMetadata where
  name : String
  description : String
  created_at : String
  version : String
  tags : List String
  complexity : String
deriving DecidableEq

/-- An internal-format workflow document as read by
`DSLService.validate_workflow`: presence of the `version`/`metadata`/`graph`
keys. -/
structure InternalDoc where
  version? : Option String
  metadata? : Option WorkflowMetadata
  graph? : Option GraphDict
deriving DecidableEq

/-- `DSLService.generate_node_id` (lines 23-26): increment the counter and
mint `f"{node_type}_{counter}"`; returns the id and the new counter. -/
def generate_node_id (counter : Nat) (node_type : String) : String × Nat :=
  (node_type ++ "_" ++ toString (counter + 1), counter + 1)

/-- `DSLService.create_start_node` (lines 28-50). -/
def create_start_node (counter : Nat) (input_vars : List StartVar) : SNode × Nat :=
  let (id, counter) := generate_node_id counter "start"
  (⟨some id, some "start",
    { title := "Start", var_defs := input_vars, desc := "Workflow entry point" },
    [("x", 100), ("y", 100)]⟩, counter)

/-- `DSLService.create_llm_node` (lines 52-95); the model/temperature
defaults do not carry variable references and are omitted from the data
bag. -/
def create_llm_node (counter : Nat) (title prompt : String) (position : List (String × Int)) :
    SNode × Nat :=
  let (id, counter) := generate_node_id counter "llm"
  (⟨some id, some "llm",
    { title := title, prompt_template := [("user", prompt)] },
    position⟩, counter)

/-- `DSLService.create_end_node` (lines 97-121). -/
def create_end_node (counter : Nat) (outputs : List (String × String))
    (position : List (String × Int)) : SNode × Nat :=
  let (id, counter) := generate_node_id counter "end"
  (⟨some id, some "end",
    { title := "End", outputs := outputs, desc := "Workflow completion" },
    position⟩, counter)

/-- `DSLService.create_edge` (lines 123-148): the id is
`f"{source_id}-{target_id}"`. -/
def create_edge (source_id target_id : String) : SEdge :=
  ⟨source_id ++ "-" ++ target_id, some source_id, some target_id⟩

/-- `DSLService.generate_simple_workflow` (lines 150-225): reset the
counter, build start → llm → end with the literal prompt and outputs from
the source, and assemble the internal document. -/
def generate_simple_workflow (description : String) (metadata : WorkflowMetadata) :
    InternalDoc :=
  let counter := 0
  let (start_node, counter) := create_start_node counter
    [⟨"user_input", "string", "User Input", true⟩]
  let (llm_node, counter) := create_llm_node counter "Process Request"
    "Process the following user request:\n\n\x7b\x7b#start.user_input#\x7d\x7d"
    [("x", 300), ("y", 100)]
  let (end_node, _) := create_end_node counter
    [("result", "\x7b\x7b#llm.text#\x7d\x7d")]
    [("x", 500), ("y", 100)]
  let edges := [
    create_edge (start_node.id?.getD "") (llm_node.id?.getD ""),
    create_edge (llm_node.id?.getD "") (end_node.id?.getD "")]
  { version? := some "0.1"
    metadata? := some metadata
    graph? := some ⟨some [start_node, llm_node, end_node], some edges⟩ }

/-- The edge-reference check of `DSLService.validate_workflow`
(lines 289-297): for each edge, an error if its source or target id is not
among the node ids. -/
def edge_errors (edges : List SEdge) (node_ids : List (Option String)) : List String :=
  edges.foldl
    (fun errors edge =>
      let errors :=
        if node_ids.contains edge.source? then errors
        else errors ++ ["Edge source \x27" ++ (edge.source?.getD "None") ++ "\x27 not found in nodes"]
      if node_ids.contains edge.target? then errors
      else errors ++ ["Edge target \x27" ++ (edge.target?.getD "None") ++ "\x27 not found in nodes"])
    []

/-- `DSLService.validate_workflow` (lines 251-299): returns
`(len(errors) == 0, errors)`. -/
def validate_workflow (w : InternalDoc) : Bool × List String :=
  let errors : List String :=
    (if w.version?.isSome then [] else ["Missing required key: version"]) ++
    (if w.metadata?.isSome then [] else ["Missing required key: metadata"]) ++
    (if w.graph?.isSome then [] else ["Missing required key: graph"])
  let errors :=
    match w.graph? with
    | none => errors
    | some graph =>
        let errors := errors ++
          (if graph.nodes?.isSome then [] else ["Missing \x27nodes\x27 in graph"]) ++
          (if graph.edges?.isSome then [] else ["Missing \x27edges\x27 in graph"])
        match graph.nodes?, graph.edges? with
        | some nodes, some edges =>
            let node_types := nodes.map (·.type?)
            let errors := errors ++
              (if node_types.contains (some "start") then [] else ["Missing start node"]) ++
              (if node_types.contains (some "end") then [] else ["Missing end node"])
            errors ++ edge_errors edges (nodes.map (·.id?))
        | _, _ => errors
  (errors.length = 0, errors)

end DslService

/-! ## The `VARIABLE_PATTERN` regex

`re.compile(r'\{\{#([a-zA-Z0-9_-]+)\.([a-zA-Z0-9_\[\]]+)#\}\}')` from
validation_service.py line 78, as a left-to-right non-overlapping scanner
over the characters of a text field. -/

/-- A character matched by `[a-zA-Z0-9_-]`. -/
def is_ref_id_char (c : Char) : Bool :=
  (('a' ≤ c ∧ c ≤ 'z') ∨ ('A' ≤ c ∧ c ≤ 'Z') ∨ ('0' ≤ c ∧ c ≤ '9') ∨ c = '_' ∨ c = '-')

/-- A character matched by `[a-zA-Z0-9_\[\]]`. -/
def is_ref_field_char (c : Char) : Bool :=
  (('a' ≤ c ∧ c ≤ 'z') ∨ ('A' ≤ c ∧ c ≤ 'Z') ∨ ('0' ≤ c ∧ c ≤ '9') ∨ c = '_' ∨
    c = '[' ∨ c = ']')

/-- Try to match the variable-reference pattern at the head of the
character list; on success return the two capture groups and the remaining
characters. -/
def try_match_ref (cs : List Char) : Option ((List Char × List Char) × List Char) :=
  match cs with
  | '\x7b' :: '\x7b' :: '#' :: rest =>
      let nid := rest.takeWhile is_ref_id_char
      let rest1 := rest.dropWhile is_ref_id_char
      if nid = [] then none
      else
        match rest1 with
        | '.' :: rest2 =>
            let fld := rest2.takeWhile is_ref_field_char
            let rest3 := rest2.dropWhile is_ref_field_char
            if fld = [] then none
            else
              match rest3 with
              | '#' :: '\x7d' :: '\x7d' :: rest4 => some ((nid, fld), rest4)
              | _ => none
        | _ => none
  | _ => none

/-- `VARIABLE_PATTERN.findall`: scan left to right, emitting each
non-overlapping match.  `fuel` bounds the recursion; the caller passes the
length of the input, which is enough since each step consumes at least one
character. -/
def scan_refs : Nat → List Char → List (List Char × List Char)
  | 0, _ => []
  | _, [] => []
  | fuel + 1, c :: cs =>
      match try_match_ref (c :: cs) with
      | some (r, rest) => r :: scan_refs fuel rest
      | none => scan_refs fuel cs

/-- `findall` over a `String` text field. -/
def find_variable_refs (s : String) : List (String × String) :=
  (scan_refs s.data.length s.data).map (fun p => (String.mk p.1, String.mk p.2))

/-- All text fields of an internal document that can embed variable
references: the LLM prompt texts and the end-node output values. -/
def DslService.doc_texts (w : DslService.InternalDoc) : List String :=
  match w.graph? with
  | none => []
  | some g =>
      (g.nodes?.getD []).foldl
        (fun acc n =>
          acc ++ n.data.prompt_template.map (·.2) ++ n.data.outputs.map (·.2)) []

/-- The node ids of an internal document (in node order). -/
def DslService.doc_node_ids (w : DslService.InternalDoc) : List (Option String) :=
  match w.graph? with
  | none => []
  | some g => (g.nodes?.getD []).map (·.id?)

/-! ## app/utils/dify_builder.py — variable-reference helpers

Strings are embedded as `List Char` here because the claims are about
character-level slicing. -/

namespace DifyBuilder

/-- The literal `"\x7b\x7b#"` envelope opener. -/
def ref_open : List Char := ['\x7b', '\x7b', '#']

/-- The literal `"#\x7d\x7d"` envelope closer. -/
def ref_close : List Char := ['#', '\x7d', '\x7d']

/-- `make_variable_reference` (dify_builder.py lines 813-824):
`f"\x7b\x7b#{node_id}.{field}#\x7d\x7d"`. -/
def make_variable_reference (node_id field : List Char) : List Char :=
  ref_open ++ node_id ++ ['.'] ++ field ++ ref_close

/-- Python `content.split(".", 1)`: `none` when there is no separator,
otherwise the parts before and after the first occurrence. -/
def split_once (sep : Char) : List Char → Option (List Char × List Char)
  | [] => none
  | c :: cs =>
      if c = sep then some ([], cs)
      else (split_once sep cs).map (fun p => (c :: p.1, p.2))

/-- `parse_variable_reference` (dify_builder.py lines 840-859):
check the `\x7b\x7b# ... #\x7d\x7d` envelope, strip three characters from
each end, and split the content on the first `.`. -/
def parse_variable_reference (ref : List Char) : Option (List Char × List Char) :=
  if ref.take 3 = ref_open ∧ ref.drop (ref.length - 3) = ref_close then
    split_once '.' ((ref.drop 3).take (ref.length - 6))
  else none

end DifyBuilder

/-! ## app/utils/retry.py -/

namespace Retry

/-- The outcome of one invocation of the wrapped function: a normal return,
an exception in `retryable_exceptions`, or any other (non-retryable)
exception.  Exceptions are represented by their message. -/
inductive CallOutcome (α : Type) where
  | ok (v : α)
  | retryable (e : String)
  | fatal (e : String)

/-- The body of `async_wrapper`/`sync_wrapper`
(retry.py lines 60-175), with `f n` the outcome of the invocation at
`attempt = n` and `remaining = max_retries - attempt`.  The result records
the returned value or propagated exception, the number of invocations of
the wrapped function, and the number of backoff sleeps performed.  On
exhaustion with a `fallback` present (the source also requires a `model`
keyword argument), one final invocation with the fallback model is made; if
it fails, the original `last_exception` propagates. -/
def retry_go {α : Type} (f : Nat → CallOutcome α) (fallback : Option (CallOutcome α)) :
    Nat → Nat → Except String α × Nat × Nat
  | 0, attempt =>
      match f attempt with
      | .ok v => (.ok v, 1, 0)
      | .fatal e => (.error e, 1, 0)
      | .retryable e =>
          match fallback with
          | none => (.error e, 1, 0)
          | some (.ok v) => (.ok v, 2, 0)
          | some _ => (.error e, 2, 0)
  | remaining + 1, attempt =>
      match f attempt with
      | .ok v => (.ok v, 1, 0)
      | .fatal e => (.error e, 1, 0)
      | .retryable _ =>
          let (res, calls, sleeps) := retry_go f fallback remaining (attempt + 1)
          (res, calls + 1, sleeps + 1)

/-- A function decorated by `retry_with_exponential_backoff(max_retries, ...)`
(retry.py lines 31-177): run attempts `0 .. max_retries`. -/
def retry_call {α : Type} (f : Nat → CallOutcome α) (fallback : Option (CallOutcome α))
    (max_retries : Nat) : Except String α × Nat × Nat :=
  retry_go f fallback max_retries 0

/-- `min(base_delay * exponential_base ** attempt, max_delay)`
(retry.py line 97): the un-jittered backoff delay before retry number
`attempt + 1`. -/
def backoff_delay (base_delay max_delay exponential_base : ℚ) (attempt : Nat) : ℚ :=
  min (base_delay * exponential_base ^ attempt) max_delay

end Retry

/-! ## app/graph/state.py and app/graph/workflow_graph.py -/

namespace Graph

/-- `QualityIssue` (state.py lines 40-45). -/
structure QualityIssue where
  severity : String
  node_id : Option String
  issue : String
  recommendation : String
deriving DecidableEq

/-- `QualityAssessment` (state.py lines 48-56). -/
structure QualityAssessment where
  overall_score : ℚ
  completeness_score : ℚ
  correctness_score : ℚ
  best_practices_score : ℚ
  issues : List QualityIssue
  recommendations : List String
  should_retry : Bool
deriving DecidableEq

/-- `ClarifiedRequirements` (state.py lines 9-18).  The free-form
`input_data`/`expected_output`/`performance_requirements` dictionaries are
embedded as string-keyed association lists whose values are either strings
or lists of strings, enough to cover the values the code actually builds. -/
inductive JsonLite where
  | str (s : String)
  | arr (l : List String)

/-- See `JsonLite`. -/
structure ClarifiedRequirements where
  business_intent : String
  input_data : List (String × JsonLite)
  expected_output : List (String × JsonLite)
  business_logic : List String
  integrations : List String
  performance_requirements : Option (List (String × JsonLite))
  constraints : List String
  confidence_score : ℚ

/-- `WorkflowArchitecture` (state.py lines 21-29). -/
structure WorkflowArchitecture where
  pattern_id : String
  pattern_name : String
  node_types : List String
  edge_structure : List (String × String)
  complexity : String
  estimated_nodes : Nat
  reasoning : String

/-- `ConfiguredNode` (state.py lines 32-37); the free-form `data` settings
object is opaque to the control flow and embedded as key/value pairs. -/
structure ConfiguredNode where
  id : String
  type : String
  data : List (String × String)
  position : List (String × Int)

/-- `WorkflowGenerationState` (state.py lines 59-87). -/
structure WorkflowGenerationState where
  user_request : String
  preferences : Option (List (String × String))
  requirements : Option ClarifiedRequirements
  architecture : Option WorkflowArchitecture
  configured_nodes : List ConfiguredNode
  configured_edges : List (String × String)
  quality_report : Option QualityAssessment
  final_dsl : Option Unit
  iterations : Int
  max_iterations : Int
  current_agent : Option String
  retrieved_patterns : List String
  error_history : List String

/-- The two outgoing routes of the conditional edge. -/
inductive Route where
  | iterate
  | finalize
deriving DecidableEq

/-- `should_iterate` (workflow_graph.py lines 99-131): route back to
configuration exactly when a quality report exists, it asks for a retry,
its overall score is below 70 and `iterations < max_iterations`. -/
def should_iterate (state : WorkflowGenerationState) : Route :=
  match state.quality_report with
  | none => .finalize
  | some quality_report =>
      if quality_report.should_retry ∧ quality_report.overall_score < 70 ∧
          state.iterations < state.max_iterations then
        .iterate
      else .finalize

/-- The partial state update returned by `quality_node` on success
(quality_agent.py lines 262-265): it sets `quality_report` and
`current_agent` only — in particular it never touches `iterations`. -/
def apply_quality_update (state : WorkflowGenerationState) (report : QualityAssessment) :
    WorkflowGenerationState :=
  { state with
    quality_report := some report
    current_agent := some "Quality Assurance Agent" }

/-- The partial state update returned by `configuration_node`
(configuration_agent.py): it sets `configured_nodes`, `configured_edges`
and `current_agent` — it never touches `iterations` either. -/
def apply_configuration_update (state : WorkflowGenerationState)
    (nodes : List ConfiguredNode) (edges : List (String × String)) :
    WorkflowGenerationState :=
  { state with
    configured_nodes := nodes
    configured_edges := edges
    current_agent := some "Configuration Agent" }

/-- The state after the `(n+1)`-th visit to the quality stage, assuming the
conditional edge keeps routing `"iterate"`: each loop turn re-runs
configuration and then quality.  `reports n` is the assessment produced at
the `n`-th quality visit and `cfg n` the nodes/edges produced at the `n`-th
re-configuration. -/
def loop_state (reports : Nat → QualityAssessment)
    (cfg : Nat → List ConfiguredNode × List (String × String))
    (s0 : WorkflowGenerationState) : Nat → WorkflowGenerationState
  | 0 => apply_quality_update s0 (reports 0)
  | n + 1 =>
      apply_quality_update
        (apply_configuration_update (loop_state reports cfg s0 n) (cfg (n + 1)).1 (cfg (n + 1)).2)
        (reports (n + 1))

/-- The initial state built by `generate_multi_agent_workflow`
(generation.py lines 211-224), with `max_iterations` taken from the request
preferences (here: the scenario value). -/
def multi_agent_initial_state (user_request : String) (max_iterations : Int) :
    WorkflowGenerationState :=
  { user_request := user_request
    preferences := none
    requirements := none
    architecture := none
    configured_nodes := []
    configured_edges := []
    quality_report := none
    final_dsl := none
    iterations := 0
    max_iterations := max_iterations
    current_agent := none
    retrieved_patterns := []
    error_history := [] }

end Graph

/-! ## app/services/recommendation_service.py -/

namespace Recommend

/-- Python `round(x, 2)` on a rational: banker's rounding (round half to
even) of `x * 100`, divided by 100. -/
def bround (q : ℚ) : ℤ :=
  let f := ⌊q⌋
  if q - f < 1 / 2 then f
  else if 1 / 2 < q - f then f + 1
  else if f % 2 = 0 then f else f + 1

/-- `round(score, 2)` (recommendation_service.py line 197). -/
def round2 (q : ℚ) : ℚ := (bround (q * 100) : ℚ) / 100

/-- The per-candidate scoring of `_score_patterns`
(recommendation_service.py lines 151-198).  The string-level tests the
source performs on the description are abstracted into the predicates
`kw_in_desc` ("this complexity keyword occurs in `description.lower()`")
and `uc_relevant` ("some word of this use case occurs in the description or
the analyzed requirements"); the keyword list for the candidate's stated
complexity and the candidate's use-case list are `none` when the
corresponding metadata key is absent/falsy. -/
def score_pattern (distance : ℚ) (complexity_keywords : Option (List String))
    (kw_in_desc : String → Bool) (use_cases : Option (List String))
    (uc_relevant : String → Bool) : ℚ :=
  let similarity_score := max 0 (1 - distance) * 100
  let score := similarity_score * (6 / 10)
  let score :=
    match complexity_keywords with
    | none => score
    | some keywords =>
        let keyword_matches := (keywords.filter kw_in_desc).length
        let complexity_score := ((keyword_matches : ℚ) / (max keywords.length 1 : ℕ)) * 100
        score + complexity_score * (2 / 10)
  match use_cases with
  | none => score
  | some ucs =>
      let relevance_matches := (ucs.filter uc_relevant).length
      let use_case_score := ((relevance_matches : ℚ) / (max ucs.length 1 : ℕ)) * 100
      score + use_case_score * (2 / 10)

/-- `pattern["recommendation_score"] = round(score, 2)` (line 197). -/
def recommendation_score (distance : ℚ) (complexity_keywords : Option (List String))
    (kw_in_desc : String → Bool) (use_cases : Option (List String))
    (uc_relevant : String → Bool) : ℚ :=
  round2 (score_pattern distance complexity_keywords kw_in_desc use_cases uc_relevant)

end Recommend

/-! ## app/agents/requirements_agent.py -/

namespace Requirements

open Graph

/-- `RequirementsAgent._create_fallback_requirements`
(requirements_agent.py lines 178-197). -/
def create_fallback_requirements (state : WorkflowGenerationState) : ClarifiedRequirements :=
  { business_intent := state.user_request
    input_data := [("type", .str "string"), ("description", .str "User input"),
      ("validation", .arr [])]
    expected_output := [("type", .str "string"), ("description", .str "Processed result"),
      ("format", .str "text")]
    business_logic := ["Process user input", "Generate output"]
    integrations := []
    performance_requirements := none
    constraints := []
    confidence_score := 3 / 10 }

/-- The partial state update returned by `RequirementsAgent.execute`; the
success branch (lines 163-167) has no `error_history` key and the failure
branch (lines 169-176) has no `retrieved_patterns` key, so both are
`Option`s here. -/
structure ReqUpdate where
  requirements : ClarifiedRequirements
  retrieved_patterns? : Option (List String)
  error_history? : Option (List String)
  current_agent : String

/-- `RequirementsAgent.execute` (lines 107-176), parameterized by the
combined outcome of the pattern retrieval + LLM call + JSON validation
(`.ok` with the parsed requirements, or `.exc` with the exception
message). -/
def requirements_execute (state : WorkflowGenerationState)
    (outcome : Except String (ClarifiedRequirements × List String)) : ReqUpdate :=
  match outcome with
  | .ok (requirements, similar_patterns) =>
      { requirements := requirements
        retrieved_patterns? := some similar_patterns
        error_history? := none
        current_agent := "Requirements Agent" }
  | .error e =>
      { requirements := create_fallback_requirements state
        retrieved_patterns? := none
        error_history? := some (state.error_history ++ ["Requirements: " ++ e])
        current_agent := "Requirements Agent" }

end Requirements

/-! ## Lemmas about the validation service -/

/-- A predicate on validation results that is preserved by each of the
three issue-adding primitives.  Every validation phase is a composition of
these primitives, so such predicates are preserved by every phase. -/
def PrimClosed (P : ValidationResult → Prop) : Prop :=
  (∀ r m l s, P r → P (r.add_error m l s)) ∧
  (∀ r m l s, P r → P (r.add_warning m l s)) ∧
  (∀ r m l, P r → P (r.add_info m l))

theorem foldl_closed {σ : Type} {P : ValidationResult → Prop}
    (step : ValidationResult → σ → ValidationResult)
    (hstep : ∀ r x, P r → P (step r x)) :
    ∀ (l : List σ) (r : ValidationResult), P r → P (l.foldl step r) := by
  intro l
  induction l with
  | nil => intro r hr; exact hr
  | cons x xs ih => intro r hr; exact ih _ (hstep r x hr)

theorem validate_structure_closed {P : ValidationResult → Prop} (hP : PrimClosed P)
    (doc : TopDoc) (r : ValidationResult) (hr : P r) : P (validate_structure doc r) := by
  unfold validate_structure
  match doc.app? with
  | none => exact hP.1 _ _ _ _ hr
  | some app =>
      dsimp only
      split_ifs <;> first
        | exact hr
        | exact hP.1 _ _ _ _ hr

theorem validate_node_type_specific_closed {P : ValidationResult → Prop} (hP : PrimClosed P)
    (t : String) (d : NodeDataDict) (i : String) (r : ValidationResult) (hr : P r) :
    P (validate_node_type_specific t d i r) := by
  unfold validate_node_type_specific
  split_ifs <;> first
    | exact hr
    | exact hP.2.1 _ _ _ _ hr

theorem validate_node_data_closed {P : ValidationResult → Prop} (hP : PrimClosed P)
    (d : NodeDataDict) (i : String) (r : ValidationResult) (hr : P r) :
    P (validate_node_data d i r) := by
  unfold validate_node_data
  dsimp only
  split_ifs <;> first
    | exact hP.1 _ _ _ _ hr
    | exact validate_node_type_specific_closed hP _ _ _ _ hr
    | exact validate_node_type_specific_closed hP _ _ _ _ (hP.1 _ _ _ _ hr)

theorem validate_nodes_loop_closed {P : ValidationResult → Prop} (hP : PrimClosed P) :
    ∀ (nodes : List NodeDict) (i : Nat) (ids : List String) (r : ValidationResult),
      P r → P (validate_nodes_loop nodes i ids r) := by
  intro nodes
  induction nodes with
  | nil => intro i ids r hr; exact hr
  | cons node rest ih =>
      intro i ids r hr
      unfold validate_nodes_loop
      match node.id?, node.data? with
      | some node_id, some node_data =>
          dsimp only
          split_ifs
          · exact ih _ _ _ (validate_node_data_closed hP _ _ _ (hP.1 _ _ _ _ hr))
          · exact ih _ _ _ (validate_node_data_closed hP _ _ _ hr)
      | none, some node_data => exact ih _ _ _ (hP.1 _ _ _ _ hr)
      | some node_id, none => exact ih _ _ _ (hP.1 _ _ _ _ hr)
      | none, none => exact ih _ _ _ (hP.1 _ _ _ _ hr)

theorem validate_nodes_closed {P : ValidationResult → Prop} (hP : PrimClosed P)
    (nodes : List NodeDict) (r : ValidationResult) (hr : P r) : P (validate_nodes nodes r) := by
  unfold validate_nodes
  split
  · exact hP.1 _ _ _ _ hr
  · exact validate_nodes_loop_closed hP _ _ _ _ hr

theorem validate_edges_loop_closed {P : ValidationResult → Prop} (hP : PrimClosed P) :
    ∀ (edges : List EdgeDict) (i : Nat) (ids : List (Option String)) (r : ValidationResult),
      P r → P (validate_edges_loop edges i ids r) := by
  intro edges
  induction edges with
  | nil => intro i ids r hr; exact hr
  | cons edge rest ih =>
      intro i ids r hr
      unfold validate_edges_loop
      match edge.source?, edge.target? with
      | some s, some t =>
          dsimp only
          split_ifs <;> apply ih <;> first
            | exact hr
            | exact hP.1 _ _ _ _ hr
            | exact hP.1 _ _ _ _ (hP.1 _ _ _ _ hr)
      | none, some t => exact ih _ _ _ (hP.1 _ _ _ _ hr)
      | some s, none => exact ih _ _ _ (hP.1 _ _ _ _ hr)
      | none, none => exact ih _ _ _ (hP.1 _ _ _ _ hr)

theorem validate_edges_phase_closed {P : ValidationResult → Prop} (hP : PrimClosed P)
    (edges : List EdgeDict) (ids : List (Option String)) (r : ValidationResult) (hr : P r) :
    P (validate_edges_phase edges ids r) := by
  unfold validate_edges_phase
  split
  · exact hP.2.1 _ _ _ _ hr
  · exact validate_edges_loop_closed hP _ _ _ _ hr

theorem validate_start_end_nodes_closed {P : ValidationResult → Prop} (hP : PrimClosed P)
    (nodes : List NodeDict) (r : ValidationResult) (hr : P r) :
    P (validate_start_end_nodes nodes r) := by
  unfold validate_start_end_nodes check_multiple_end check_multiple_start check_missing_end
    check_missing_start
  dsimp only
  split_ifs <;> first
    | exact hr
    | exact hP.1 _ _ _ _ hr
    | exact hP.1 _ _ _ _ (hP.1 _ _ _ _ hr)
    | exact hP.2.1 _ _ _ _ hr
    | exact hP.2.1 _ _ _ _ (hP.1 _ _ _ _ hr)
    | exact hP.2.1 _ _ _ _ (hP.1 _ _ _ _ (hP.1 _ _ _ _ hr))
    | exact hP.2.2 _ _ _ hr
    | exact hP.2.2 _ _ _ (hP.1 _ _ _ _ hr)
    | exact hP.2.2 _ _ _ (hP.1 _ _ _ _ (hP.1 _ _ _ _ hr))
    | exact hP.2.2 _ _ _ (hP.2.1 _ _ _ _ hr)
    | exact hP.2.2 _ _ _ (hP.2.1 _ _ _ _ (hP.1 _ _ _ _ hr))
    | exact hP.2.2 _ _ _ (hP.2.1 _ _ _ _ (hP.1 _ _ _ _ (hP.1 _ _ _ _ hr)))

theorem validate_variable_references_closed {P : ValidationResult → Prop} (hP : PrimClosed P)
    (doc : TopDoc) (r : ValidationResult) (hr : P r) :
    P (validate_variable_references doc r) := by
  unfold validate_variable_references
  apply foldl_closed _ _ _ _ hr
  intro r p hrp
  split
  · exact hrp
  · exact hP.2.1 _ _ _ _ hrp

theorem validate_connectivity_closed {P : ValidationResult → Prop} (hP : PrimClosed P)
    (nodes : List NodeDict) (edges : List EdgeDict) (r : ValidationResult) (hr : P r) :
    P (validate_connectivity nodes edges r) := by
  unfold validate_connectivity
  split
  · exact hr
  · split
    · exact hP.1 _ _ _ _ hr
    · dsimp only
      split
      · exact hr
      · split_ifs
        · exact hr
        · exact hP.2.1 _ _ _ _ hr

theorem validate_workflow_closed {P : ValidationResult → Prop} (hP : PrimClosed P)
    (doc : TopDoc) (hr : P { is_valid := true }) : P (validate_workflow doc) := by
  unfold validate_workflow
  apply validate_connectivity_closed hP
  apply validate_variable_references_closed hP
  apply validate_start_end_nodes_closed hP
  apply validate_edges_phase_closed hP
  apply validate_nodes_closed hP
  exact validate_structure_closed hP _ _ hr

/-- Membership of a fixed issue together with invalidity is preserved by the
issue-adding primitives. -/
theorem issuePersists_primClosed (i : ValidationIssue) :
    PrimClosed (fun r => i ∈ r.issues ∧ r.is_valid = false) := by
  refine ⟨?_, ?_, ?_⟩
  · intro r m l s hr
    exact ⟨by simp [ValidationResult.add_error, hr.1], rfl⟩
  · intro r m l s hr
    exact ⟨by simp [ValidationResult.add_warning, hr.1], hr.2⟩
  · intro r m l hr
    exact ⟨by simp [ValidationResult.add_info, hr.1], hr.2⟩

/-- The validity flag tracks the error count exactly: this is preserved by
the issue-adding primitives. -/
theorem validIff_primClosed :
    PrimClosed (fun r => (r.is_valid = true ↔ r.errors_count = 0)) := by
  refine ⟨?_, ?_, ?_⟩
  · intro r m l s _
    simp [ValidationResult.add_error]
  · intro r m l s hr
    simpa [ValidationResult.add_warning] using hr
  · intro r m l hr
    simpa [ValidationResult.add_info] using hr

/-- In any result produced by `validate_workflow`, `is_valid` is `True`
exactly when no error was recorded (`add_error` is the only primitive that
flips the flag, and it always increments the count). -/
theorem validate_workflow_valid_iff (doc : TopDoc) :
    (validate_workflow doc).is_valid = true ↔ (validate_workflow doc).errors_count = 0 := by
  exact validate_workflow_closed validIff_primClosed doc (by simp)

/-- The error issue recorded at validation_service.py lines 316-320 when no
`end`-type node exists. -/
def missing_end_issue : ValidationIssue :=
  ⟨"error", "Workflow missing \x27end\x27 node", none,
    some "Add an end node to define workflow exit point"⟩

/-- The informational issue recorded at lines 329-332 when several
`end`-type nodes exist. -/
def multi_end_info_issue : ValidationIssue :=
  ⟨"info", "Workflow has multiple \x27end\x27 nodes (may be intentional for branching)",
    none, none⟩

/-- Membership of a fixed issue alone is preserved by the primitives. -/
theorem issueMem_primClosed (i : ValidationIssue) :
    PrimClosed (fun r => i ∈ r.issues) := by
  refine ⟨?_, ?_, ?_⟩
  · intro r m l s hr
    simp [ValidationResult.add_error, hr]
  · intro r m l s hr
    simp [ValidationResult.add_warning, hr]
  · intro r m l hr
    simp [ValidationResult.add_info, hr]

theorem validate_start_end_adds_missing_end (nodes : List NodeDict) (r : ValidationResult)
    (h : ¬ (node_types_of nodes).contains (some "end")) :
    missing_end_issue ∈ (validate_start_end_nodes nodes r).issues ∧
      (validate_start_end_nodes nodes r).is_valid = false := by
  unfold validate_start_end_nodes
  dsimp only
  have hP := issuePersists_primClosed missing_end_issue
  have base :
      missing_end_issue ∈ (check_missing_end (node_types_of nodes)
          (check_missing_start (node_types_of nodes) r)).issues ∧
        (check_missing_end (node_types_of nodes)
          (check_missing_start (node_types_of nodes) r)).is_valid = false := by
    unfold check_missing_end
    rw [if_neg (by simpa using h)]
    exact ⟨by simp [ValidationResult.add_error, missing_end_issue], rfl⟩
  refine ?_
  unfold check_multiple_end check_multiple_start
  split_ifs <;> first
    | exact base
    | exact hP.2.2 _ _ _ base
    | exact hP.2.1 _ _ _ _ base
    | exact hP.2.2 _ _ _ (hP.2.1 _ _ _ _ base)

theorem validate_start_end_adds_multi_end (nodes : List NodeDict) (r : ValidationResult)
    (h : 1 < (node_types_of nodes).count (some "end")) :
    multi_end_info_issue ∈ (validate_start_end_nodes nodes r).issues := by
  unfold validate_start_end_nodes check_multiple_end
  dsimp only
  rw [if_pos (by simpa using h)]
  simp [ValidationResult.add_info, multi_end_info_issue]

/-- The variable-reference phase only ever adds warnings: error count and
validity flag pass through unchanged. -/
theorem validate_variable_references_errors (doc : TopDoc) (r : ValidationResult) :
    (validate_variable_references doc r).errors_count = r.errors_count ∧
      (validate_variable_references doc r).is_valid = r.is_valid := by
  unfold validate_variable_references
  generalize doc.var_refs = refs
  induction refs generalizing r with
  | nil => exact ⟨rfl, rfl⟩
  | cons p ps ih =>
      simp only [List.foldl_cons]
      split_ifs
      · exact ih r
      · rcases ih (r.add_warning _ _ _) with ⟨h1, h2⟩
        exact ⟨h1, h2⟩

/-! ## Concrete documents used to instantiate the claims -/

/-- A platform-shaped document whose only node is a well-formed start node
and which has no end-type node. -/
def single_start_doc : TopDoc :=
  { app? := some
      { hasName := true
        hasDescription := true
        nodes? := some [⟨some "start_1", some ⟨some "start", true, false, false, false, false, false⟩⟩]
        edges? := some [] }
    var_refs := [] }

/-- A platform-shaped document with two end-type nodes. -/
def two_end_doc : TopDoc :=
  { app? := some
      { hasName := true
        hasDescription := true
        nodes? := some
          [⟨some "end_1", some ⟨some "end", true, false, false, false, false, false⟩⟩,
           ⟨some "end_2", some ⟨some "end", true, false, false, false, false, false⟩⟩]
        edges? := some [] }
    var_refs := [] }

/-- A document on which the deep validator reports exactly 5 errors (two
invalid node types, one duplicate id, missing start, missing end). -/
def five_error_doc : TopDoc :=
  { app? := some
      { hasName := true
        hasDescription := true
        nodes? := some
          [⟨some "a", some ⟨some "foo", true, false, false, false, false, false⟩⟩,
           ⟨some "a", some ⟨some "bar", true, false, false, false, false, false⟩⟩]
        edges? := some [] }
    var_refs := [] }

/-! ## Claim C2 -/

/-- Claim C2: the quality agent validates `{"nodes": ..., "edges": ...}`,
which has no top-level `"app"` key, so the pre-LLM validation pass reports
exactly 4 errors (missing app key, no nodes, missing start, missing end)
whatever the configured nodes/edges serialize to, and the resulting penalty
`min(20, errors_count * 5) = 20` is subtracted from both the LLM-reported
overall and correctness scores (floored at 0) on every successful
assessment. -/
theorem quality_precheck_reports_four_errors (refs : List (String × String)) (S C : ℚ) :
    (validate_workflow (quality_workflow_json refs)).errors_count = 4 ∧
    (validate_workflow (quality_workflow_json refs)).is_valid = false ∧
    quality_apply_penalty (validate_workflow (quality_workflow_json refs)) S C
      = (max 0 (S - 20), max 0 (C - 20)) := by
  have heq : validate_workflow (quality_workflow_json refs)
      = validate_variable_references (quality_workflow_json refs)
          (validate_start_end_nodes []
            (validate_edges_phase [] []
              (validate_nodes []
                (validate_structure (quality_workflow_json refs) { is_valid := true })))) := rfl
  rcases validate_variable_references_errors (quality_workflow_json refs)
      (validate_start_end_nodes []
        (validate_edges_phase [] []
          (validate_nodes []
            (validate_structure (quality_workflow_json refs) { is_valid := true }))))
    with ⟨herr, hval⟩
  have h4 : (validate_workflow (quality_workflow_json refs)).errors_count = 4 := by
    rw [heq, herr]; rfl
  have hv : (validate_workflow (quality_workflow_json refs)).is_valid = false := by
    rw [heq, hval]; rfl
  refine ⟨h4, hv, ?_⟩
  have : min (20 : ℚ) (((validate_workflow (quality_workflow_json refs)).errors_count : ℚ) * 5)
      = 20 := by
    rw [h4]; norm_num
  simp only [quality_apply_penalty, hv, if_pos]
  rw [this]

/-! ## Claim C4 -/

/-- Claim C4, counterexample: on a platform-shaped document whose only node
is a well-formed start node, the absence of an end-type node is reported
with severity `"error"` (not `"warning"`), and `is_valid` is flipped to
`False` although the missing end node is the only error recorded. -/
theorem missing_end_reported_as_error_counterexample :
    (validate_workflow single_start_doc).is_valid = false ∧
    (validate_workflow single_start_doc).errors_count = 1 ∧
    (validate_workflow single_start_doc).issues.filter (fun i => i.severity = "error")
      = [missing_end_issue] := by
  refine ⟨rfl, rfl, ?_⟩
  rfl

/-- Claim C4 (amended): for every platform-shaped document run through the
deep validation service, the absence of any end-type node is reported as an
**error** (flipping the result's `is_valid` to `False`), and the presence of
multiple end-type nodes is reported as an informational issue. -/
theorem missing_end_error_and_multi_end_info (d1 d2 : TopDoc)
    (h1 : ¬ (node_types_of d1.app_nodes).contains (some "end"))
    (h2 : 1 < (node_types_of d2.app_nodes).count (some "end")) :
    (missing_end_issue ∈ (validate_workflow d1).issues ∧
      (validate_workflow d1).is_valid = false) ∧
    multi_end_info_issue ∈ (validate_workflow d2).issues := by
  constructor
  · have heq : validate_workflow d1
        = validate_connectivity d1.app_nodes d1.app_edges
            (validate_variable_references d1
              (validate_start_end_nodes d1.app_nodes
                (validate_edges_phase d1.app_edges (d1.app_nodes.map (·.id?))
                  (validate_nodes d1.app_nodes
                    (validate_structure d1 { is_valid := true }))))) := rfl
    rw [heq]
    apply validate_connectivity_closed (issuePersists_primClosed _)
    apply validate_variable_references_closed (issuePersists_primClosed _)
    exact validate_start_end_adds_missing_end _ _ h1
  · have heq : validate_workflow d2
        = validate_connectivity d2.app_nodes d2.app_edges
            (validate_variable_references d2
              (validate_start_end_nodes d2.app_nodes
                (validate_edges_phase d2.app_edges (d2.app_nodes.map (·.id?))
                  (validate_nodes d2.app_nodes
                    (validate_structure d2 { is_valid := true }))))) := rfl
    rw [heq]
    apply validate_connectivity_closed (issueMem_primClosed _)
    apply validate_variable_references_closed (issueMem_primClosed _)
    exact validate_start_end_adds_multi_end _ _ h2

/-- Witness for the amended C4 theorem at two concrete documents. -/
theorem missing_end_error_and_multi_end_info_witness :
    (¬ (node_types_of single_start_doc.app_nodes).contains (some "end")) ∧
    (1 < (node_types_of two_end_doc.app_nodes).count (some "end")) ∧
    ((missing_end_issue ∈ (validate_workflow single_start_doc).issues ∧
        (validate_workflow single_start_doc).is_valid = false) ∧
      multi_end_info_issue ∈ (validate_workflow two_end_doc).issues) :=
  ⟨by decide, by decide,
    missing_end_error_and_multi_end_info single_start_doc two_end_doc (by decide) (by decide)⟩

/-! ## Claim C7 -/

/-- Claim C7: when the pre-check validation recorded `E > 0` errors and the
LLM reported overall score `S` and correctness score `C`, the quality agent
returns `overall = max 0 (S - min 20 (E*5))` and
`correctness = max 0 (C - min 20 (E*5))`; neither is ever negative, and in
particular `S = 80` with `E = 5` yields a final overall score of 60. -/
theorem quality_penalty_composition (doc : TopDoc) (S C : ℚ)
    (h : 0 < (validate_workflow doc).errors_count) :
    quality_apply_penalty (validate_workflow doc) S C
      = (max 0 (S - min 20 (((validate_workflow doc).errors_count : ℚ) * 5)),
         max 0 (C - min 20 (((validate_workflow doc).errors_count : ℚ) * 5))) ∧
    0 ≤ (quality_apply_penalty (validate_workflow doc) S C).1 ∧
    0 ≤ (quality_apply_penalty (validate_workflow doc) S C).2 ∧
    ((validate_workflow doc).errors_count = 5 → S = 80 →
      (quality_apply_penalty (validate_workflow doc) S C).1 = 60) := by
  have hv : (validate_workflow doc).is_valid = false := by
    rcases Bool.eq_false_or_eq_true (validate_workflow doc).is_valid with hb | hb
    · exact absurd ((validate_workflow_valid_iff doc).mp hb) (by omega)
    · exact hb
  have hmain : quality_apply_penalty (validate_workflow doc) S C
      = (max 0 (S - min 20 (((validate_workflow doc).errors_count : ℚ) * 5)),
         max 0 (C - min 20 (((validate_workflow doc).errors_count : ℚ) * 5))) := by
    simp [quality_apply_penalty, hv]
  refine ⟨hmain, ?_, ?_, ?_⟩
  · rw [hmain]; exact le_max_left 0 _
  · rw [hmain]; exact le_max_left 0 _
  · intro h5 hS
    rw [hmain, hS, h5]
    norm_num

/-- Witness for C7 at a document with exactly 5 validation errors and
LLM scores `S = 80`, `C = 70`. -/
theorem quality_penalty_composition_witness :
    0 < (validate_workflow five_error_doc).errors_count ∧
    (quality_apply_penalty (validate_workflow five_error_doc) 80 70
        = (max 0 (80 - min 20 (((validate_workflow five_error_doc).errors_count : ℚ) * 5)),
           max 0 (70 - min 20 (((validate_workflow five_error_doc).errors_count : ℚ) * 5))) ∧
      0 ≤ (quality_apply_penalty (validate_workflow five_error_doc) 80 70).1 ∧
      0 ≤ (quality_apply_penalty (validate_workflow five_error_doc) 80 70).2 ∧
      ((validate_workflow five_error_doc).errors_count = 5 → (80 : ℚ) = 80 →
        (quality_apply_penalty (validate_workflow five_error_doc) 80 70).1 = 60)) :=
  ⟨by decide, quality_penalty_composition five_error_doc 80 70 (by decide)⟩

/-! ## Claim C5 -/

/-- `workflow["graph"]["nodes"]` of an internal document (empty if the
`graph` or `nodes` key is absent). -/
def DslService.doc_nodes (w : DslService.InternalDoc) : List DslService.SNode :=
  match w.graph? with
  | none => []
  | some g => g.nodes?.getD []

/-- `workflow["graph"]["edges"]` of an internal document. -/
def DslService.doc_edges (w : DslService.InternalDoc) : List DslService.SEdge :=
  match w.graph? with
  | none => []
  | some g => g.edges?.getD []

/-- Claim C5: for every description and metadata,
`generate_simple_workflow` returns a document with exactly 3 nodes of types
start/llm/end, ids `start_1`/`llm_2`/`end_3` minted from the reset counter,
exactly 2 edges `start_1 → llm_2` and `llm_2 → end_3`, and the internal
`validate_workflow` accepts it with `(True, [])`. -/
theorem generate_simple_workflow_structure (description : String)
    (md : DslService.WorkflowMetadata) :
    (DslService.doc_nodes (DslService.generate_simple_workflow description md)).map
        (fun n => (n.id?, n.type?))
      = [(some "start_1", some "start"), (some "llm_2", some "llm"),
         (some "end_3", some "end")] ∧
    (DslService.doc_edges (DslService.generate_simple_workflow description md)).map
        (fun e => (e.source?, e.target?))
      = [(some "start_1", some "llm_2"), (some "llm_2", some "end_3")] ∧
    DslService.validate_workflow (DslService.generate_simple_workflow description md)
      = (true, []) := by
  refine ⟨rfl, rfl, rfl⟩

/-! ## Claim C3 -/

/-- All `(node_id, field)` variable references embedded in the text fields
of an internal document. -/
def DslService.doc_refs (w : DslService.InternalDoc) : List (String × String) :=
  (DslService.doc_texts w).foldl (fun acc t => acc ++ find_variable_refs t) []

/-- Claim C3 (divergence exhibited): the document returned by
`generate_simple_workflow` embeds exactly the variable references
`\x7b\x7b#start.user_input#\x7d\x7d` and `\x7b\x7b#llm.text#\x7d\x7d`, but
its node ids are `start_1`, `llm_2`, `end_3`; hence neither embedded
reference resolves to an existing node id of the graph or to
`conversation`, violating the claimed invariant. -/
theorem simple_workflow_variable_refs_dangling (description : String)
    (md : DslService.WorkflowMetadata) :
    DslService.doc_refs (DslService.generate_simple_workflow description md)
      = [("start", "user_input"), ("llm", "text")] ∧
    DslService.doc_node_ids (DslService.generate_simple_workflow description md)
      = [some "start_1", some "llm_2", some "end_3"] ∧
    ¬ (DslService.doc_node_ids (DslService.generate_simple_workflow description md)).contains
        (some "start") ∧
    ¬ (DslService.doc_node_ids (DslService.generate_simple_workflow description md)).contains
        (some "llm") ∧
    ("start" : String) ≠ "conversation" ∧ ("llm" : String) ≠ "conversation" := by
  have hids : DslService.doc_node_ids (DslService.generate_simple_workflow description md)
      = [some "start_1", some "llm_2", some "end_3"] := rfl
  refine ⟨rfl, hids, ?_, ?_, by decide, by decide⟩ <;> rw [hids] <;> decide

/-! ## Claim C1 -/

/-- A quality assessment that always asks for a retry with a failing
score — the scenario of the claim. -/
def always_bad_report : Graph.QualityAssessment :=
  { overall_score := 50
    completeness_score := 50
    correctness_score := 50
    best_practices_score := 50
    issues := []
    recommendations := []
    should_retry := true }

theorem loop_state_iterations (reports : Nat → Graph.QualityAssessment)
    (cfg : Nat → List Graph.ConfiguredNode × List (String × String))
    (s0 : Graph.WorkflowGenerationState) :
    ∀ n, (Graph.loop_state reports cfg s0 n).iterations = s0.iterations ∧
      (Graph.loop_state reports cfg s0 n).max_iterations = s0.max_iterations ∧
      (Graph.loop_state reports cfg s0 n).quality_report = some (reports n) := by
  intro n
  induction n with
  | zero => exact ⟨rfl, rfl, rfl⟩
  | succ n ih =>
      refine ⟨?_, ?_, rfl⟩
      · simpa [Graph.loop_state, Graph.apply_quality_update,
          Graph.apply_configuration_update] using ih.1
      · simpa [Graph.loop_state, Graph.apply_quality_update,
          Graph.apply_configuration_update] using ih.2.1

/-- Claim C1 (divergence exhibited): starting from the endpoint's initial
state with `max_iterations = 2` and `iterations = 0`, when the quality
stage always produces a report with `should_retry = True` and
`overall_score < 70`, the conditional edge `should_iterate` returns
`"iterate"` after **every** quality visit — the `iterations` counter is
never incremented by any stage, so the loop re-enters configuration
unboundedly and never routes to finalize (the claimed bound of at most 2
re-entries fails, e.g. at the third quality visit). -/
theorem pipeline_retry_loop_unbounded :
    ∀ n, Graph.should_iterate
        (Graph.loop_state (fun _ => always_bad_report) (fun _ => ([], []))
          (Graph.multi_agent_initial_state "low quality request" 2) n)
      = Graph.Route.iterate ∧
      (Graph.loop_state (fun _ => always_bad_report) (fun _ => ([], []))
        (Graph.multi_agent_initial_state "low quality request" 2) n).iterations = 0 := by
  intro n
  rcases loop_state_iterations (fun _ => always_bad_report) (fun _ => ([], []))
      (Graph.multi_agent_initial_state "low quality request" 2) n with ⟨hit, hmax, hrep⟩
  constructor
  · unfold Graph.should_iterate
    rw [hrep]
    dsimp only
    rw [if_pos]
    refine ⟨rfl, by norm_num [always_bad_report], ?_⟩
    rw [hit, hmax]
    norm_num [Graph.multi_agent_initial_state]
  · exact hit

/-! ## Claim C6 -/

/-- Claim C6: for a function wrapped with `max_retries = 3` and no fallback
model, raising a retryable exception on every invocation leads to exactly
4 invocations (1 initial + 3 retries), 3 backoff sleeps, and propagation of
the last retryable exception; a non-retryable exception on the first
invocation leads to exactly 1 invocation, no backoff sleep, and immediate
propagation. -/
theorem retry_decorator_call_counts {α : Type} (f g : Nat → Retry.CallOutcome α)
    (err : Nat → String) (e : String)
    (hf : ∀ n, f n = Retry.CallOutcome.retryable (err n))
    (hg : g 0 = Retry.CallOutcome.fatal e) :
    Retry.retry_call f none 3 = (Except.error (err 3), 4, 3) ∧
    Retry.retry_call g none 3 = (Except.error e, 1, 0) := by
  constructor
  · simp [Retry.retry_call, Retry.retry_go, hf 0, hf 1, hf 2, hf 3]
  · simp [Retry.retry_call, Retry.retry_go, hg]

/-- Witness for C6 at concrete always-retryable and first-call-fatal
functions. -/
theorem retry_decorator_call_counts_witness :
    Retry.retry_call (fun n => (Retry.CallOutcome.retryable (toString n) : Retry.CallOutcome Nat))
        none 3 = (Except.error "3", 4, 3) ∧
    Retry.retry_call (fun _ => (Retry.CallOutcome.fatal "boom" : Retry.CallOutcome Nat)) none 3
      = (Except.error "boom", 1, 0) :=
  retry_decorator_call_counts
    (fun n => (Retry.CallOutcome.retryable (toString n) : Retry.CallOutcome Nat))
    (fun _ => (Retry.CallOutcome.fatal "boom" : Retry.CallOutcome Nat))
    (fun n => toString n) "boom" (fun _ => rfl) rfl

/-! ## Claim C8 -/

theorem split_once_append (n f : List Char) (h : '.' ∉ n) :
    DifyBuilder.split_once '.' (n ++ '.' :: f) = some (n, f) := by
  induction n with
  | nil => simp [DifyBuilder.split_once]
  | cons c cs ih =>
      rw [List.mem_cons] at h
      push_neg at h
      have hc : ¬ c = '.' := fun hcc => h.1 hcc.symm
      have hrest := ih h.2
      simp only [List.cons_append, DifyBuilder.split_once, if_neg hc, List.append_eq, hrest]
      rfl

/-- Claim C8, counterexample: for a node id containing a dot,
`parse_variable_reference (make_variable_reference node_id field)` does not
return `(node_id, field)` — the first capture stops at the first dot. -/
theorem variable_reference_roundtrip_counterexample :
    DifyBuilder.parse_variable_reference
        (DifyBuilder.make_variable_reference ['a', '.', 'b'] ['c'])
      = some (['a'], ['b', '.', 'c']) ∧
    DifyBuilder.parse_variable_reference
        (DifyBuilder.make_variable_reference ['a', '.', 'b'] ['c'])
      ≠ some (['a', '.', 'b'], ['c']) := by
  decide

/-- Claim C8 (amended): for every non-empty node id **that contains no
dot** and non-empty field name, `parse_variable_reference ∘
make_variable_reference` returns exactly the pair back; and every string
not wrapped in the `\x7b\x7b# ... #\x7d\x7d` envelope parses to `none`. -/
theorem variable_reference_roundtrip (n f ref : List Char)
    (hn : n ≠ []) (hf : f ≠ []) (hdot : '.' ∉ n)
    (href : ¬ (ref.take 3 = DifyBuilder.ref_open ∧
      ref.drop (ref.length - 3) = DifyBuilder.ref_close)) :
    DifyBuilder.parse_variable_reference (DifyBuilder.make_variable_reference n f)
      = some (n, f) ∧
    DifyBuilder.parse_variable_reference ref = none := by
  constructor
  · have hform : DifyBuilder.make_variable_reference n f
        = DifyBuilder.ref_open ++ ((n ++ '.' :: f) ++ DifyBuilder.ref_close) := by
      simp [DifyBuilder.make_variable_reference, List.append_assoc]
    have hlen : (DifyBuilder.make_variable_reference n f).length
        = n.length + f.length + 7 := by
      rw [hform]
      simp [DifyBuilder.ref_open, DifyBuilder.ref_close]
      omega
    have htake : (DifyBuilder.make_variable_reference n f).take 3 = DifyBuilder.ref_open := by
      rw [hform]
      exact List.take_left' rfl
    have hdrop : (DifyBuilder.make_variable_reference n f).drop
        ((DifyBuilder.make_variable_reference n f).length - 3) = DifyBuilder.ref_close := by
      rw [hlen, hform, ← List.append_assoc]
      apply List.drop_left'
      simp [DifyBuilder.ref_open]
      omega
    have hcontent : ((DifyBuilder.make_variable_reference n f).drop 3).take
        ((DifyBuilder.make_variable_reference n f).length - 6) = n ++ '.' :: f := by
      rw [hlen, hform]
      have h3 : ((DifyBuilder.ref_open ++ ((n ++ '.' :: f) ++ DifyBuilder.ref_close)).drop 3)
          = (n ++ '.' :: f) ++ DifyBuilder.ref_close := List.drop_left' rfl
      rw [h3]
      apply List.take_left'
      simp
      omega
    unfold DifyBuilder.parse_variable_reference
    rw [if_pos ⟨htake, hdrop⟩, hcontent]
    exact split_once_append n f hdot
  · unfold DifyBuilder.parse_variable_reference
    rw [if_neg href]

/-- Witness for the amended C8 theorem at `("llm_1", "text")` and the
malformed string `"x"`. -/
theorem variable_reference_roundtrip_witness :
    (['l', 'l', 'm', '_', '1'] : List Char) ≠ [] ∧
    (['t', 'e', 'x', 't'] : List Char) ≠ [] ∧
    '.' ∉ (['l', 'l', 'm', '_', '1'] : List Char) ∧
    ¬ ((['x'] : List Char).take 3 = DifyBuilder.ref_open ∧
        (['x'] : List Char).drop ((['x'] : List Char).length - 3) = DifyBuilder.ref_close) ∧
    (DifyBuilder.parse_variable_reference
        (DifyBuilder.make_variable_reference ['l', 'l', 'm', '_', '1'] ['t', 'e', 'x', 't'])
      = some (['l', 'l', 'm', '_', '1'], ['t', 'e', 'x', 't']) ∧
     DifyBuilder.parse_variable_reference ['x'] = none) :=
  ⟨by decide, by decide, by decide, by decide,
    variable_reference_roundtrip ['l', 'l', 'm', '_', '1'] ['t', 'e', 'x', 't'] ['x']
      (by decide) (by decide) (by decide) (by decide)⟩

/-! ## Claim C10 -/

/-- Claim C10: whenever the Requirements agent's pipeline raises (LLM call,
pattern retrieval or JSON parse/validation), `execute` still returns an
update whose requirements carry `confidence_score = 0.3` and a
`business_logic` list with a non-empty entry, and whose `error_history` is
the prior history with exactly the entry `"Requirements: <message>"`
appended. -/
theorem requirements_fallback_guarantees (s : Graph.WorkflowGenerationState) (e : String) :
    (Requirements.requirements_execute s (Except.error e)).requirements.confidence_score
      = 3 / 10 ∧
    (∃ b ∈ (Requirements.requirements_execute s (Except.error e)).requirements.business_logic,
      b ≠ "") ∧
    (Requirements.requirements_execute s (Except.error e)).error_history?
      = some (s.error_history ++ ["Requirements: " ++ e]) := by
  refine ⟨rfl, ⟨"Process user input", ?_, by decide⟩, rfl⟩
  simp [Requirements.requirements_execute, Requirements.create_fallback_requirements]

/-! ## Claim C9 -/

theorem bround_cases (q : ℚ) :
    Recommend.bround q = ⌊q⌋ ∨ Recommend.bround q = ⌊q⌋ + 1 := by
  unfold Recommend.bround
  dsimp only
  split_ifs <;> simp

theorem le_bround (q : ℚ) : q - 1 ≤ (Recommend.bround q : ℚ) := by
  have hf := Int.sub_one_lt_floor q
  rcases bround_cases q with h | h <;> rw [h] <;> push_cast <;> linarith

theorem bround_le (q : ℚ) : (Recommend.bround q : ℚ) ≤ q + 1 := by
  have hf := Int.floor_le q
  rcases bround_cases q with h | h <;> rw [h] <;> push_cast <;> linarith

theorem bround_nonneg (q : ℚ) (h : 0 ≤ q) : 0 ≤ Recommend.bround q := by
  have hf := Int.floor_nonneg.mpr h
  rcases bround_cases q with hb | hb <;> omega

theorem bround_le_of_le_int (q : ℚ) (m : ℤ) (h : q ≤ m) : Recommend.bround q ≤ m := by
  have hfm : ⌊q⌋ ≤ m := by
    have := Int.floor_le_floor h
    simpa using this
  unfold Recommend.bround
  dsimp only
  split_ifs with h1 h2 h3
  · exact hfm
  · -- round up: 1/2 < q - ⌊q⌋, so ⌊q⌋ < m as rationals
    have hq : (⌊q⌋ : ℚ) + 1 / 2 < q := by linarith
    have : (⌊q⌋ : ℚ) < (m : ℚ) := by linarith
    have : ⌊q⌋ < m := by exact_mod_cast this
    omega
  · exact hfm
  · -- tie broken upwards: q - ⌊q⌋ = 1/2 exactly
    have hq : (⌊q⌋ : ℚ) + 1 / 2 ≤ q := by linarith
    have : (⌊q⌋ : ℚ) < (m : ℚ) := by linarith
    have : ⌊q⌋ < m := by exact_mod_cast this
    omega

theorem bround_intCast (m : ℤ) : Recommend.bround (m : ℚ) = m := by
  unfold Recommend.bround
  simp only [Int.floor_intCast, sub_self]
  norm_num

theorem round2_nonneg (x : ℚ) (h : 0 ≤ x) : 0 ≤ Recommend.round2 x := by
  unfold Recommend.round2
  have hb : 0 ≤ Recommend.bround (x * 100) := bround_nonneg _ (by positivity)
  have : (0 : ℚ) ≤ (Recommend.bround (x * 100) : ℚ) := by exact_mod_cast hb
  linarith

theorem round2_le_100 (x : ℚ) (h : x ≤ 100) : Recommend.round2 x ≤ 100 := by
  unfold Recommend.round2
  have hb : Recommend.bround (x * 100) ≤ 10000 :=
    bround_le_of_le_int _ 10000 (by push_cast; linarith)
  have : (Recommend.bround (x * 100) : ℚ) ≤ 10000 := by exact_mod_cast hb
  linarith

theorem round2_dist (x : ℚ) :
    x - 1 / 100 ≤ Recommend.round2 x ∧ Recommend.round2 x ≤ x + 1 / 100 := by
  unfold Recommend.round2
  have h1 := le_bround (x * 100)
  have h2 := bround_le (x * 100)
  constructor <;> linarith

theorem round2_idem (x : ℚ) : Recommend.round2 (Recommend.round2 x) = Recommend.round2 x := by
  unfold Recommend.round2
  have h : ((Recommend.bround (x * 100) : ℚ) / 100) * 100 = (Recommend.bround (x * 100) : ℚ) := by
    field_simp
  rw [h, bround_intCast]

theorem filter_ratio_bounds (l : List String) (pr : String → Bool) :
    0 ≤ ((l.filter pr).length : ℚ) / ((max l.length 1 : ℕ) : ℚ) ∧
      ((l.filter pr).length : ℚ) / ((max l.length 1 : ℕ) : ℚ) ≤ 1 := by
  constructor
  · positivity
  · apply div_le_one_of_le₀
    · exact_mod_cast le_trans (List.length_filter_le pr l) (le_max_left _ _)
    · positivity

theorem score_pattern_bounds (d : ℚ) (ck : Option (List String)) (p : String → Bool)
    (uc : Option (List String)) (q : String → Bool) (hd : 0 ≤ d) :
    0 ≤ Recommend.score_pattern d ck p uc q ∧ Recommend.score_pattern d ck p uc q ≤ 100 := by
  have hsim0 : (0 : ℚ) ≤ max 0 (1 - d) := le_max_left _ _
  have hsim1 : max (0 : ℚ) (1 - d) ≤ 1 := max_le (by norm_num) (by linarith)
  unfold Recommend.score_pattern
  cases ck with
  | none =>
      cases uc with
      | none => constructor <;> [positivity; linarith]
      | some ucs =>
          rcases filter_ratio_bounds ucs q with ⟨hu0, hu1⟩
          dsimp only
          constructor <;> linarith
  | some kws =>
      rcases filter_ratio_bounds kws p with ⟨hk0, hk1⟩
      cases uc with
      | none =>
          dsimp only
          constructor <;> linarith
      | some ucs =>
          rcases filter_ratio_bounds ucs q with ⟨hu0, hu1⟩
          dsimp only
          constructor <;> linarith

theorem score_pattern_sub (ck : Option (List String)) (p : String → Bool)
    (uc : Option (List String)) (q : String → Bool) :
    Recommend.score_pattern (1 / 5) ck p uc q
      = Recommend.score_pattern (1 / 2) ck p uc q + 18 := by
  have h1 : max (0 : ℚ) (1 - 1 / 5) = 4 / 5 := by
    rw [max_eq_right] <;> norm_num
  have h2 : max (0 : ℚ) (1 - 1 / 2) = 1 / 2 := by
    rw [max_eq_right] <;> norm_num
  unfold Recommend.score_pattern
  cases ck <;> cases uc <;> dsimp only <;> rw [h1, h2] <;> ring

/-- Claim C9: with everything but the distance equal, the candidate at
distance 0.2 gets a strictly higher `recommendation_score` than the one at
distance 0.5; every score is in `[0, 100]` (distances from the vector store
are nonnegative) and already rounded to 2 decimals (rounding it again is
the identity). -/
theorem recommendation_scoring_properties (ck : Option (List String)) (p : String → Bool)
    (uc : Option (List String)) (q : String → Bool) (d : ℚ) (hd : 0 ≤ d) :
    Recommend.recommendation_score (1 / 5) ck p uc q
        > Recommend.recommendation_score (1 / 2) ck p uc q ∧
    0 ≤ Recommend.recommendation_score d ck p uc q ∧
    Recommend.recommendation_score d ck p uc q ≤ 100 ∧
    Recommend.round2 (Recommend.recommendation_score d ck p uc q)
      = Recommend.recommendation_score d ck p uc q := by
  rcases score_pattern_bounds d ck p uc q hd with ⟨hb0, hb1⟩
  refine ⟨?_, round2_nonneg _ hb0, round2_le_100 _ hb1, round2_idem _⟩
  unfold Recommend.recommendation_score
  rw [score_pattern_sub ck p uc q]
  have h1 := (round2_dist (Recommend.score_pattern (1 / 2) ck p uc q + 18)).1
  have h2 := (round2_dist (Recommend.score_pattern (1 / 2) ck p uc q)).2
  linarith

/-- Witness for C9 at a concrete candidate (no complexity metadata, no use
cases, distance 0.25). -/
theorem recommendation_scoring_properties_witness :
    (0 : ℚ) ≤ 1 / 4 ∧
    (Recommend.recommendation_score (1 / 5) none (fun _ => false) none (fun _ => false)
        > Recommend.recommendation_score (1 / 2) none (fun _ => false) none (fun _ => false) ∧
      0 ≤ Recommend.recommendation_score (1 / 4) none (fun _ => false) none (fun _ => false) ∧
      Recommend.recommendation_score (1 / 4) none (fun _ => false) none (fun _ => false) ≤ 100 ∧
      Recommend.round2
          (Recommend.recommendation_score (1 / 4) none (fun _ => false) none (fun _ => false))
        = Recommend.recommendation_score (1 / 4) none (fun _ => false) none (fun _ => false)) :=
  ⟨by norm_num,
    recommendation_scoring_properties none (fun _ => false) none (fun _ => false) (1 / 4)
      (by norm_num)⟩

end DSLMaker
